import Mathlib

/-!
Shallow embedding of the gold-price acquisition-and-caching engine
(`app.py`, `scraper_api.py` of tetipong2542/gold-beer) in Lean 4,
with theorems checking the natural-language specification against it.

Conventions:
* Python floats become `Rat` (no claim depends on float rounding).
* Python `None` becomes `Option.none`; falsiness of numbers is `= 0`,
  of strings is `= ""`.
* Wall-clock inputs (`datetime.now()`) are explicit parameters.
* Strings are processed on `String.data` (`List Char`) with structural
  recursion so concrete instances reduce inside the kernel.
-/

namespace GoldBeer

/-- Split a character list at every occurrence of `sep`
(the semantics of Python `str.split(sep)` for one-character separators). -/
def splitOnChar (sep : Char) : List Char → List (List Char)
  | [] => [[]]
  | c :: rest =>
    let r := splitOnChar sep rest
    if c = sep then [] :: r
    else
      match r with
      | [] => [[c]]
      | g :: gs => (c :: g) :: gs

/-- Numeric value of a decimal digit character. -/
def digitVal (c : Char) : Nat := c.toNat - 48

/-- Parse a non-empty all-digit character list as a natural number
(the success case of Python `int(...)` on such strings). -/
def digitsToNat (cs : List Char) : Option Nat :=
  if cs ≠ [] ∧ cs.all Char.isDigit then
    some (cs.foldl (fun n c => n * 10 + digitVal c) 0)
  else none

/-! ## scraper_api.py -/

def GOLD_API_URL : String := "https://rakatong.com/api/homepage.php"
def GOLD_SCRAPE_URL : String := "https://classic.goldtraders.or.th/"
def SOURCE_API : String := "api"
def SOURCE_SCRAPER : String := "scraper"
def SOURCE_AUTO : String := "auto"
def STALE_THRESHOLD_MINUTES : Nat := 30

/-- `price_change` / `today_change`: `{"amount": ..., "direction": ...}`. -/
structure Change where
  amount : Rat
  direction : String
  deriving Repr, DecidableEq

/-- `gold_bar` / `gold_ornament`: `{"buy": ..., "sell": ...}`. -/
structure GoldPair where
  buy : Option Rat
  sell : Option Rat
  deriving Repr, DecidableEq

/-- The normalized price-record dictionary produced by every adapter
(`scrape_gold_prices_api`, `scrape_gold_prices`). -/
structure PriceRecord where
  success : Bool
  timestamp : Option String
  gold_bar : GoldPair
  gold_ornament : GoldPair
  update_time : Option String
  update_date : Option String
  price_change : Change
  today_change : Change
  change_count : Nat
  source : String
  source_type : Option String
  error : Option String
  deriving Repr, DecidableEq

/-- A naive local wall-clock instant as used by `is_data_stale`:
a day number plus the microsecond offset into that day. -/
structure StaleClock where
  day : Int
  sodMicros : Nat
  deriving Repr, DecidableEq

/-- Try to match the regex `(\d{1,2}):(\d{2})` anchored at the head of `cs`,
with the one-digit-hour backtracking alternative. -/
def matchHMAt (cs : List Char) : Option (Nat × Nat) :=
  let oneDigit :=
    match cs with
    | a :: c :: d :: e :: _ =>
      if a.isDigit ∧ c = ':' ∧ d.isDigit ∧ e.isDigit then
        some (digitVal a, digitVal d * 10 + digitVal e)
      else none
    | _ => none
  match cs with
  | a :: b :: c :: d :: e :: _ =>
    if a.isDigit ∧ b.isDigit ∧ c = ':' ∧ d.isDigit ∧ e.isDigit then
      some (digitVal a * 10 + digitVal b, digitVal d * 10 + digitVal e)
    else oneDigit
  | _ => oneDigit

/-- Leftmost match of Python `re.search` with the same `HH:MM` pattern. -/
def findHM : List Char → Option (Nat × Nat)
  | [] => none
  | c :: rest =>
    match matchHMAt (c :: rest) with
    | some r => some r
    | none => findHM rest

def MICROS_PER_DAY : Int := 86400000000

/-- `is_data_stale(update_time_str)`: the `HH:MM` part of the string is read
as a local time on the same day as `now` (seconds and microseconds zeroed); if that
instant is in the future it is shifted to the previous day; the data is stale
when the elapsed time exceeds `STALE_THRESHOLD_MINUTES`.  Empty input, no
`HH:MM` match, or an hour/minute that `datetime.replace` rejects all yield
`True`. -/
def is_data_stale (update_time_str : String) (now : StaleClock) : Bool :=
  if update_time_str = "" then true
  else
    match findHM update_time_str.data with
    | none => true
    | some (hour, minute) =>
      if 23 < hour ∨ 59 < minute then true
      else
        let updSod : Nat := (hour * 3600 + minute * 60) * 1000000
        let nowTotal : Int := now.day * MICROS_PER_DAY + now.sodMicros
        let updTotal : Int :=
          if now.sodMicros < updSod then (now.day - 1) * MICROS_PER_DAY + updSod
          else now.day * MICROS_PER_DAY + updSod
        decide (nowTotal - updTotal > (STALE_THRESHOLD_MINUTES : Int) * 60 * 1000000)

/-- `fetch_from_scraper()`, applied to the record the goldtraders scraper
would return: on success the source fields are rewritten, otherwise the
record passes through unchanged. -/
def fetch_from_scraper (scraped : PriceRecord) : PriceRecord :=
  if scraped.success then
    { scraped with source := GOLD_SCRAPE_URL, source_type := some SOURCE_SCRAPER }
  else scraped

/-- `fetch_gold_prices(source_mode)`: the orchestrator, with the outcomes of
the two adapters (`scrape_gold_prices_api`, `scrape_gold_prices`) and the
current clock supplied as explicit inputs. -/
def fetch_gold_prices (source_mode : String) (apiRaw scrapedRaw : PriceRecord)
    (now : StaleClock) : PriceRecord :=
  if source_mode = SOURCE_SCRAPER then fetch_from_scraper scrapedRaw
  else
    let result := { apiRaw with source_type := some SOURCE_API }
    if source_mode = SOURCE_AUTO then
      if result.success = false then
        let scraper_result := fetch_from_scraper scrapedRaw
        if scraper_result.success then scraper_result else result
      else if is_data_stale (result.update_time.getD "") now then
        let api_price_change := result.price_change
        let api_today_change := result.today_change
        let scraper_result := fetch_from_scraper scrapedRaw
        if scraper_result.success then
          let scraper_result :=
            if scraper_result.price_change.amount = 0 then
              { scraper_result with price_change := api_price_change }
            else scraper_result
          let scraper_result :=
            if scraper_result.today_change.amount = 0 then
              { scraper_result with today_change := api_today_change }
            else scraper_result
          scraper_result
        else result
      else result
    else result

/-! ## app.py : data model and global state -/

/-- The compact projection of a `PriceRecord` appended to `price_history`
when a change is detected (`history_entry` in `fetch_gold_prices_job`). -/
structure HistoryEntry where
  timestamp : Option String
  gold_bar : GoldPair
  gold_ornament : GoldPair
  price_change : Change
  update_time : Option String
  change_count : Nat
  deriving Repr, DecidableEq

/-- The `adaptive_settings` dictionary. -/
structure AdaptiveSettings where
  adaptive_enabled : Bool
  base_interval : Int
  unchanged_count : Nat
  last_change_count : Option Nat
  current_interval : Int
  deriving Repr, DecidableEq

/-- One day-type quiet-hours window `{"enabled", "start", "end"}`. -/
structure DayWindow where
  enabled : Bool
  start : String
  stop : String
  deriving Repr, DecidableEq

/-- The `quiet_hours_settings` dictionary (`stop` embeds the `"end"` key). -/
structure QuietHoursSettings where
  enabled : Bool
  weekday : DayWindow
  weekend : DayWindow
  deriving Repr, DecidableEq

/-- The `gold_source_settings` dictionary. -/
structure GoldSourceSettings where
  mode : String
  last_source_used : Option String
  deriving Repr, DecidableEq

/-- All mutable module-level state of `app.py` guarded by `data_lock`. -/
structure AppState where
  current_price : Option PriceRecord
  price_history : List HistoryEntry
  adaptive : AdaptiveSettings
  wp_api_enabled : Bool
  gold_source : GoldSourceSettings
  quiet_hours : QuietHoursSettings
  deriving Repr, DecidableEq

def HISTORY_MAXLEN : Nat := 1440

/-- The module-level initial values of the state dictionaries. -/
def initialState : AppState where
  current_price := none
  price_history := []
  adaptive :=
    { adaptive_enabled := true, base_interval := 120, unchanged_count := 0
      last_change_count := none, current_interval := 120 }
  wp_api_enabled := true
  gold_source := { mode := SOURCE_AUTO, last_source_used := none }
  quiet_hours :=
    { enabled := true
      weekday := { enabled := true, start := "18:00", stop := "08:00" }
      weekend := { enabled := true, start := "18:00", stop := "08:00" } }

/-- The wall-clock facts `fetch_gold_prices_job` and its callees read from
`datetime.now(THAI_TZ)`: local hour, minute, weekday (Monday = 0) and the
`YYYY-MM-DD` date string. -/
structure JobEnv where
  hour : Nat
  minute : Nat
  weekday : Nat
  today : String
  deriving Repr, DecidableEq

/-! ## app.py : functions -/

/-- `map(int, s.split(":"))` turned into minutes since midnight, as
`is_quiet_hours` computes it for well-formed `"HH:MM"` strings
(malformed strings, on which Python would raise, default to 0). -/
def parseHM (s : String) : Nat :=
  match splitOnChar ':' s.data with
  | [h, m] => (digitsToNat h).getD 0 * 60 + (digitsToNat m).getD 0
  | _ => 0

/-- `is_quiet_hours()`. -/
def is_quiet_hours (env : JobEnv) (qs : QuietHoursSettings) : Bool :=
  if qs.enabled = false then false
  else
    let current_time := env.hour * 60 + env.minute
    let config := if env.weekday < 5 then qs.weekday else qs.weekend
    if config.enabled = false then false
    else
      let start_mins := parseHM config.start
      let end_mins := parseHM config.stop
      if end_mins < start_mins then
        decide (start_mins ≤ current_time ∨ current_time < end_mins)
      else
        decide (start_mins ≤ current_time ∧ current_time < end_mins)

/-- `deque(maxlen := cap).append`: drop from the left when full. -/
def dequeAppend (cap : Nat) (xs : List α) (x : α) : List α :=
  if xs.length < cap then xs ++ [x]
  else xs.drop (xs.length + 1 - cap) ++ [x]

/-- `calculate_price_changes(new_bar_sell)`: derive `price_change` (vs the
last history entry) and `today_change` (vs the first entry of today) from the
history buffer.  Python numeric/string truthiness is `≠ 0` / `≠ ""`. -/
def calculate_price_changes (env : JobEnv) (history : List HistoryEntry)
    (new_bar_sell : Option Rat) : Change × Change :=
  let dflt : Change := { amount := 0, direction := "unchanged" }
  match new_bar_sell with
  | none => (dflt, dflt)
  | some nb =>
    if history.isEmpty then (dflt, dflt)
    else
      let price_change :=
        match history.getLast? with
        | some last_entry =>
          match last_entry.gold_bar.sell with
          | some last_sell =>
            if last_sell ≠ 0 ∧ last_sell ≠ nb then
              { amount := |nb - last_sell|
                direction := if 0 < nb - last_sell then "up" else "down" }
            else dflt
          | none => dflt
        | none => dflt
      let today_entries :=
        history.filter (fun h => env.today.data.isPrefixOf (h.timestamp.getD "").data)
      let today_change :=
        match today_entries.head? with
        | some first_today =>
          match first_today.gold_bar.sell with
          | some first_sell =>
            if first_sell ≠ 0 then
              let total_diff := nb - first_sell
              if total_diff ≠ 0 then
                { amount := |total_diff|
                  direction := if 0 < total_diff then "up" else "down" }
              else dflt
            else dflt
          | none => dflt
        | none => dflt
      (price_change, today_change)

/-- `is_off_hours = weekday >= 5 or hour < 9 or hour >= 17` in
`adjust_refresh_interval`. -/
def isOffHours (env : JobEnv) : Bool :=
  decide (5 ≤ env.weekday ∨ env.hour < 9 ∨ 17 ≤ env.hour)

/-- The `new_interval` priority ladder of `adjust_refresh_interval`. -/
def desiredInterval (env : JobEnv) (a : AdaptiveSettings) : Int :=
  if isOffHours env then a.base_interval * 10
  else if 10 ≤ a.unchanged_count then a.base_interval * 5
  else if 5 ≤ a.unchanged_count then a.base_interval * 3
  else a.base_interval

/-- `adjust_refresh_interval()`: returns the updated `adaptive_settings`
together with the reschedule command sent to the scheduler (if any). -/
def adjust_refresh_interval (env : JobEnv) (a : AdaptiveSettings) :
    AdaptiveSettings × Option Int :=
  let new_interval := desiredInterval env a
  if new_interval ≠ a.current_interval then
    ({ a with current_interval := new_interval }, some new_interval)
  else (a, none)

/-- The backfill step at the top of the success branch of
`fetch_gold_prices_job`: when the source supplied no `price_change` and no
`today_change` amount, both are recomputed from the history buffer. -/
def backfillResult (env : JobEnv) (history : List HistoryEntry)
    (result : PriceRecord) : PriceRecord :=
  if result.price_change.amount = 0 ∧ result.today_change.amount = 0 then
    let calculated := calculate_price_changes env history result.gold_bar.sell
    { result with price_change := calculated.1, today_change := calculated.2 }
  else result

/-- `price_changed = (last_change_count is None or new_change_count !=
last_change_count)`. -/
def priceChanged (new_change_count : Nat) (last_change_count : Option Nat) : Bool :=
  match last_change_count with
  | none => true
  | some l => decide (new_change_count ≠ l)

/-- The `history_entry` dictionary built from an accepted record. -/
def mkHistoryEntry (r : PriceRecord) : HistoryEntry where
  timestamp := r.timestamp
  gold_bar := r.gold_bar
  gold_ornament := r.gold_ornament
  price_change := r.price_change
  update_time := r.update_time
  change_count := r.change_count

/-- The body of the `with data_lock` block of `fetch_gold_prices_job` for a
successful fetch result. -/
def applySuccess (env : JobEnv) (result : PriceRecord) (st : AppState) : AppState :=
  let result := backfillResult env st.price_history result
  let changed := priceChanged result.change_count st.adaptive.last_change_count
  let adaptive :=
    if changed then
      { st.adaptive with unchanged_count := 0
                         last_change_count := some result.change_count }
    else
      { st.adaptive with unchanged_count := st.adaptive.unchanged_count + 1 }
  let history :=
    if changed then dequeAppend HISTORY_MAXLEN st.price_history (mkHistoryEntry result)
    else st.price_history
  let st :=
    { st with adaptive := adaptive
              price_history := history
              current_price := some result
              gold_source :=
                { st.gold_source with
                    last_source_used := some (result.source_type.getD "unknown") } }
  if st.adaptive.adaptive_enabled then
    { st with adaptive := (adjust_refresh_interval env st.adaptive).1 }
  else st

/-- `fetch_gold_prices_job(force)`, with the result of the orchestrator supplied
as an input.  Returns the new state and whether `save_history()` was
triggered at the end of the call. -/
def fetch_gold_prices_job (force : Bool) (env : JobEnv) (result : PriceRecord)
    (st : AppState) : AppState × Bool :=
  if force = false ∧ is_quiet_hours env st.quiet_hours then (st, false)
  else
    let st := if result.success then applySuccess env result st else st
    (st, decide (st.price_history.length % 10 = 0))

/-- `save_history()`: the content written wholesale to the durable file —
the full in-memory history buffer. -/
def save_history (st : AppState) : List HistoryEntry :=
  st.price_history

/-- `cleanup()` (the `atexit` shutdown hook): stops the scheduler and always
runs `save_history()`; the value is the persisted content. -/
def cleanup (st : AppState) : List HistoryEntry :=
  save_history st

/-- One scheduled or forced tick as fed to `runJobs`. -/
structure JobInput where
  force : Bool
  env : JobEnv
  result : PriceRecord

/-- A whole sequence of fetch ticks. -/
def runJobs (inputs : List JobInput) (st : AppState) : AppState :=
  inputs.foldl (fun s i => (fetch_gold_prices_job i.force i.env i.result s).1) st

/-! ## app.py : settings update -/

/-- The `"quiet_hours"` object of a settings POST body. -/
structure QuietPayload where
  enabled : Option Bool
  weekday : Option DayWindow
  weekend : Option DayWindow

/-- A settings POST body: each key may be present or absent. -/
structure SettingsPayload where
  adaptive_enabled : Option Bool
  base_interval : Option Int
  wp_api_enabled : Option Bool
  gold_source_mode : Option String
  quiet_hours : Option QuietPayload

/-- The payload `{}` (no keys present). -/
def emptyPayload : SettingsPayload where
  adaptive_enabled := none
  base_interval := none
  wp_api_enabled := none
  gold_source_mode := none
  quiet_hours := none

/-- The tail of `update_settings` from the `"quiet_hours"` key on. -/
def settingsQuiet (p : SettingsPayload) (st : AppState) : Option String × AppState :=
  let st :=
    match p.quiet_hours with
    | some qh =>
      let q := st.quiet_hours
      let q := match qh.enabled with
               | some b => { q with enabled := b }
               | none => q
      let q := match qh.weekday with
               | some w => { q with weekday := w }
               | none => q
      let q := match qh.weekend with
               | some w => { q with weekend := w }
               | none => q
      { st with quiet_hours := q }
    | none => st
  (none, st)

/-- The tail of `update_settings` from the `"wp_api_enabled"` key on. -/
def settingsTail (p : SettingsPayload) (st : AppState) : Option String × AppState :=
  let st :=
    match p.wp_api_enabled with
    | some b => { st with wp_api_enabled := b }
    | none => st
  match p.gold_source_mode with
  | some mode =>
    if mode = SOURCE_API ∨ mode = SOURCE_SCRAPER ∨ mode = SOURCE_AUTO then
      settingsQuiet p { st with gold_source := { st.gold_source with mode := mode } }
    else (some "Invalid source mode", st)
  | none => settingsQuiet p st

/-- `update_settings()` (POST `/api/settings`): keys are applied in source
order; the first invalid key returns its error, leaving later keys
unapplied (and earlier ones applied).  The `Option String` is the error of
the 400 response, `none` on success. -/
def update_settings (p : SettingsPayload) (st : AppState) : Option String × AppState :=
  let st :=
    match p.adaptive_enabled with
    | some b => { st with adaptive := { st.adaptive with adaptive_enabled := b } }
    | none => st
  match p.base_interval with
  | some interval =>
    if 60 ≤ interval ∧ interval ≤ 600 then
      settingsTail p
        { st with adaptive :=
            { st.adaptive with base_interval := interval, current_interval := interval } }
    else (some "Interval must be 60-600 seconds", st)
  | none => settingsTail p st

/-! ## app.py : forced refresh and its ISO-timestamp rate limit -/

/-- A naive (or, with an offset suffix, aware) civil datetime as parsed by
`datetime.fromisoformat`. -/
structure DateTimeN where
  year : Nat
  month : Nat
  day : Nat
  hour : Nat
  minute : Nat
  second : Nat
  micro : Nat
  deriving Repr, DecidableEq

/-- Day count of a proleptic-Gregorian civil date (years ≥ 1), used only to
take differences between two datetimes. -/
def daysAbs (y m d : Nat) : Nat :=
  let yAdj := if m ≤ 2 then y - 1 else y
  let era := yAdj / 400
  let yoe := yAdj % 400
  let mp := if 2 < m then m - 3 else m + 9
  let doy := (153 * mp + 2) / 5 + d - 1
  let doe := yoe * 365 + yoe / 4 - yoe / 100 + doy
  era * 146097 + doe

/-- Microseconds of a naive datetime on the `daysAbs` axis. -/
def toMicros (dt : DateTimeN) : Nat :=
  daysAbs dt.year dt.month dt.day * 86400000000 +
    (dt.hour * 3600 + dt.minute * 60 + dt.second) * 1000000 + dt.micro

def isLeapYear (y : Nat) : Bool :=
  y % 4 = 0 ∧ (y % 100 ≠ 0 ∨ y % 400 = 0)

def daysInMonth (y m : Nat) : Nat :=
  if m = 2 then (if isLeapYear y then 29 else 28)
  else if m = 4 ∨ m = 6 ∨ m = 9 ∨ m = 11 then 30
  else 31

/-- The `YYYY-MM-DD` part of an ISO string. -/
def parseDatePart (cs : List Char) : Option (Nat × Nat × Nat) :=
  match splitOnChar '-' cs with
  | [y, m, d] =>
    if y.length = 4 ∧ m.length = 2 ∧ d.length = 2 then
      match digitsToNat y, digitsToNat m, digitsToNat d with
      | some yn, some mn, some dn =>
        if 1 ≤ yn ∧ yn ≤ 9999 ∧ 1 ≤ mn ∧ mn ≤ 12 ∧ 1 ≤ dn ∧ dn ≤ daysInMonth yn mn
        then some (yn, mn, dn)
        else none
      | _, _, _ => none
    else none
  | _ => none

/-- The fractional-second digits, scaled to microseconds. -/
def parseFraction (cs : List Char) : Option Nat :=
  if 1 ≤ cs.length ∧ cs.length ≤ 6 then
    (digitsToNat cs).map (fun v => v * 10 ^ (6 - cs.length))
  else none

/-- The `HH[:MM[:SS[.ffffff]]]` part of an ISO string, already stripped of
any UTC-offset suffix. -/
def parseTimeBase (cs : List Char) : Option (Nat × Nat × Nat × Nat) :=
  let sec : List Char → Option (Nat × Nat) := fun scs =>
    match splitOnChar '.' scs with
    | [s] => if s.length = 2 then (digitsToNat s).map (fun v => (v, 0)) else none
    | [s, f] =>
      if s.length = 2 then
        match digitsToNat s, parseFraction f with
        | some sv, some fv => some (sv, fv)
        | _, _ => none
      else none
    | _ => none
  let parts :=
    match splitOnChar ':' cs with
    | [h] => if h.length = 2 then (digitsToNat h).map (fun hv => (hv, 0, 0, 0)) else none
    | [h, m] =>
      if h.length = 2 ∧ m.length = 2 then
        match digitsToNat h, digitsToNat m with
        | some hv, some mv => some (hv, mv, 0, 0)
        | _, _ => none
      else none
    | [h, m, s] =>
      if h.length = 2 ∧ m.length = 2 then
        match digitsToNat h, digitsToNat m, sec s with
        | some hv, some mv, some (sv, fv) => some (hv, mv, sv, fv)
        | _, _, _ => none
      else none
    | _ => none
  match parts with
  | some (hv, mv, sv, fv) =>
    if hv ≤ 23 ∧ mv ≤ 59 ∧ sv ≤ 59 then some (hv, mv, sv, fv) else none
  | none => none

/-- `datetime.fromisoformat`: returns the parsed datetime and whether the
string carried a UTC offset (an aware datetime).  Offsets are detected but
not interpreted: an aware parse is only ever used to know that subtracting
it from a naive `datetime.now()` raises `TypeError`. -/
def fromisoformat (s : String) : Option (DateTimeN × Bool) :=
  match splitOnChar 'T' s.data with
  | [d] =>
    (parseDatePart d).map (fun (yn, mn, dn) =>
      ({ year := yn, month := mn, day := dn
         hour := 0, minute := 0, second := 0, micro := 0 }, false))
  | [d, t] =>
    match parseDatePart d with
    | some (yn, mn, dn) =>
      let offsetIdx := t.findIdx? (fun c => c = '+' ∨ c = '-')
      let base := match offsetIdx with
                  | some i => t.take i
                  | none => t
      let aware := offsetIdx.isSome
      match parseTimeBase base with
      | some (hv, mv, sv, fv) =>
        some ({ year := yn, month := mn, day := dn
                hour := hv, minute := mv, second := sv, micro := fv }, aware)
      | none => none
    | none => none
  | _ => none

/-- The rate-limit test at the top of `refresh_prices`: true exactly when a
snapshot exists, its `timestamp` is a truthy string that parses as a naive
ISO datetime, and `datetime.now() - last_time < timedelta(seconds=30)`
(every parse failure or aware/naive `TypeError` is swallowed by the
`except` clause and disables the limit). -/
def refreshRateLimited (now : DateTimeN) (st : AppState) : Bool :=
  match st.current_price with
  | none => false
  | some cp =>
    match cp.timestamp with
    | none => false
    | some s =>
      if s = "" then false
      else
        match fromisoformat s with
        | none => false
        | some (last_time, aware) =>
          if aware then false
          else decide ((toMicros now : Int) - toMicros last_time < 30 * 1000000)

/-- `refresh_prices` (POST `/api/gold/refresh`): either the 429 rate-limited
response carrying the untouched cached snapshot, or a forced
`fetch_gold_prices_job` run followed by the success response carrying the
new snapshot.  Result: ((success-flag, response data), new state). -/
def refresh_prices (now : DateTimeN) (env : JobEnv) (fetchResult : PriceRecord)
    (st : AppState) : (Bool × Option PriceRecord) × AppState :=
  if refreshRateLimited now st then ((false, st.current_price), st)
  else
    let st := (fetch_gold_prices_job true env fetchResult st).1
    ((true, st.current_price), st)

/-! ## Concrete fixtures used by witnesses -/

/-- A representative successful API record. -/
def sampleRec : PriceRecord where
  success := true
  timestamp := some "2026-01-05T10:00:00"
  gold_bar := { buy := some 72400, sell := some 72600 }
  gold_ornament := { buy := some 70948, sell := some 73400 }
  update_time := some "09:43"
  update_date := some "05/01/2569"
  price_change := { amount := 100, direction := "up" }
  today_change := { amount := 600, direction := "up" }
  change_count := 4
  source := GOLD_API_URL
  source_type := some SOURCE_API
  error := none

/-- `sampleRec` with a given `change_count`. -/
def sampleRecCC (c : Nat) : PriceRecord := { sampleRec with change_count := c }

/-- A failed fetch outcome. -/
def failRec : PriceRecord where
  success := false
  timestamp := some "2026-01-05T10:00:00"
  gold_bar := { buy := none, sell := none }
  gold_ornament := { buy := none, sell := none }
  update_time := none
  update_date := none
  price_change := { amount := 0, direction := "unchanged" }
  today_change := { amount := 0, direction := "unchanged" }
  change_count := 0
  source := GOLD_API_URL
  source_type := some SOURCE_API
  error := some "API request failed: timeout"

/-- A Monday noon clock: outside the default quiet window. -/
def envNoon : JobEnv where
  hour := 12
  minute := 0
  weekday := 0
  today := "2026-01-05"

/-! ## Helper lemmas about the fetch job -/

theorem backfillResult_change_count (env : JobEnv) (h : List HistoryEntry)
    (r : PriceRecord) : (backfillResult env h r).change_count = r.change_count := by
  unfold backfillResult; split <;> rfl

theorem mkHistoryEntry_change_count (r : PriceRecord) :
    (mkHistoryEntry r).change_count = r.change_count := rfl

theorem adjust_fst_unchanged_count (env : JobEnv) (a : AdaptiveSettings) :
    ((adjust_refresh_interval env a).1).unchanged_count = a.unchanged_count := by
  unfold adjust_refresh_interval; dsimp only
  repeat first | rfl | split

theorem adjust_fst_last_change_count (env : JobEnv) (a : AdaptiveSettings) :
    ((adjust_refresh_interval env a).1).last_change_count = a.last_change_count := by
  unfold adjust_refresh_interval; dsimp only
  repeat first | rfl | split

theorem dequeAppend_small {α : Type} (cap : Nat) (xs : List α) (x : α)
    (h : xs.length < cap) : dequeAppend cap xs x = xs ++ [x] := by
  unfold dequeAppend; rw [if_pos h]

/-- When the quiet gate lets a successful fetch through, the state moves by
`applySuccess`. -/
theorem job_step (env : JobEnv) (r : PriceRecord) (st : AppState)
    (hq : is_quiet_hours env st.quiet_hours = false) (hs : r.success = true) :
    (fetch_gold_prices_job false env r st).1 = applySuccess env r st := by
  unfold fetch_gold_prices_job
  simp [hq, hs]

theorem applySuccess_quiet_hours (env : JobEnv) (r : PriceRecord) (st : AppState) :
    (applySuccess env r st).quiet_hours = st.quiet_hours := by
  unfold applySuccess; dsimp only; split <;> split <;> rfl

/-- Change-detector pass, change-event case. -/
theorem applySuccess_change (env : JobEnv) (r : PriceRecord) (st : AppState)
    (hchanged : priceChanged r.change_count st.adaptive.last_change_count = true) :
    (applySuccess env r st).adaptive.unchanged_count = 0
    ∧ (applySuccess env r st).adaptive.last_change_count = some r.change_count
    ∧ (applySuccess env r st).price_history =
        dequeAppend HISTORY_MAXLEN st.price_history
          (mkHistoryEntry (backfillResult env st.price_history r)) := by
  unfold applySuccess
  dsimp only
  simp only [backfillResult_change_count, hchanged, if_true]
  split <;>
    simp [adjust_fst_unchanged_count, adjust_fst_last_change_count,
      backfillResult_change_count]

/-- Change-detector pass, repeat-observation case. -/
theorem applySuccess_nochange (env : JobEnv) (r : PriceRecord) (st : AppState)
    (hchanged : priceChanged r.change_count st.adaptive.last_change_count = false) :
    (applySuccess env r st).adaptive.unchanged_count = st.adaptive.unchanged_count + 1
    ∧ (applySuccess env r st).adaptive.last_change_count = st.adaptive.last_change_count
    ∧ (applySuccess env r st).price_history = st.price_history := by
  unfold applySuccess
  dsimp only
  simp only [backfillResult_change_count, hchanged, if_false, Bool.false_eq_true]
  split <;>
    simp [adjust_fst_unchanged_count, adjust_fst_last_change_count]

/-! ## C1 -/

/-- C1: starting from the startup state (`last_change_count = None`), five
successful fetches whose `change_count` values are 5, 5, 5, 6, 6 drive
`unchanged_count` through 0, 1, 2, 0, 1, and exactly two history entries are
appended — one by the first fetch (a `None` last count always counts as a
change) and one by the fourth (5 → 6). -/
theorem C1_change_detector_sequence
    (env1 env2 env3 env4 env5 : JobEnv) (r1 r2 r3 r4 r5 : PriceRecord)
    (hq1 : is_quiet_hours env1 initialState.quiet_hours = false)
    (hq2 : is_quiet_hours env2 initialState.quiet_hours = false)
    (hq3 : is_quiet_hours env3 initialState.quiet_hours = false)
    (hq4 : is_quiet_hours env4 initialState.quiet_hours = false)
    (hq5 : is_quiet_hours env5 initialState.quiet_hours = false)
    (hs1 : r1.success = true) (hs2 : r2.success = true) (hs3 : r3.success = true)
    (hs4 : r4.success = true) (hs5 : r5.success = true)
    (hc1 : r1.change_count = 5) (hc2 : r2.change_count = 5)
    (hc3 : r3.change_count = 5) (hc4 : r4.change_count = 6)
    (hc5 : r5.change_count = 6) :
    let s1 := (fetch_gold_prices_job false env1 r1 initialState).1
    let s2 := (fetch_gold_prices_job false env2 r2 s1).1
    let s3 := (fetch_gold_prices_job false env3 r3 s2).1
    let s4 := (fetch_gold_prices_job false env4 r4 s3).1
    let s5 := (fetch_gold_prices_job false env5 r5 s4).1
    s1.adaptive.unchanged_count = 0 ∧ s2.adaptive.unchanged_count = 1 ∧
    s3.adaptive.unchanged_count = 2 ∧ s4.adaptive.unchanged_count = 0 ∧
    s5.adaptive.unchanged_count = 1 ∧
    s1.price_history.length = 1 ∧ s2.price_history.length = 1 ∧
    s3.price_history.length = 1 ∧ s4.price_history.length = 2 ∧
    s5.price_history.length = 2 ∧
    ∃ e1 e4 : HistoryEntry, s5.price_history = [e1, e4] ∧
      e1.change_count = 5 ∧ e4.change_count = 6 := by
  intro s1 s2 s3 s4 s5
  -- step 1: None → 5 is a change event
  have hst1 : s1 = applySuccess env1 r1 initialState := job_step _ _ _ hq1 hs1
  have hch1 : priceChanged r1.change_count initialState.adaptive.last_change_count
      = true := by rw [hc1]; rfl
  obtain ⟨u1, l1, h1⟩ := applySuccess_change env1 r1 initialState hch1
  have hist1 : s1.price_history =
      [mkHistoryEntry (backfillResult env1 initialState.price_history r1)] := by
    rw [hst1, h1]; rw [dequeAppend_small _ _ _ (by decide)]; rfl
  have last1 : s1.adaptive.last_change_count = some 5 := by
    rw [hst1, l1, hc1]
  have q1 : s1.quiet_hours = initialState.quiet_hours := by
    rw [hst1]; exact applySuccess_quiet_hours _ _ _
  -- step 2: 5 = 5, no change
  have hst2 : s2 = applySuccess env2 r2 s1 := by
    exact job_step _ _ _ (by rw [q1]; exact hq2) hs2
  have hch2 : priceChanged r2.change_count s1.adaptive.last_change_count = false := by
    rw [hc2, last1]; rfl
  obtain ⟨u2, l2, h2⟩ := applySuccess_nochange env2 r2 s1 hch2
  have q2 : s2.quiet_hours = initialState.quiet_hours := by
    rw [hst2, applySuccess_quiet_hours, q1]
  have last2 : s2.adaptive.last_change_count = some 5 := by rw [hst2, l2, last1]
  have hist2 : s2.price_history = s1.price_history := by rw [hst2, h2]
  -- step 3: 5 = 5, no change
  have hst3 : s3 = applySuccess env3 r3 s2 := by
    exact job_step _ _ _ (by rw [q2]; exact hq3) hs3
  have hch3 : priceChanged r3.change_count s2.adaptive.last_change_count = false := by
    rw [hc3, last2]; rfl
  obtain ⟨u3, l3, h3⟩ := applySuccess_nochange env3 r3 s2 hch3
  have q3 : s3.quiet_hours = initialState.quiet_hours := by
    rw [hst3, applySuccess_quiet_hours, q2]
  have last3 : s3.adaptive.last_change_count = some 5 := by rw [hst3, l3, last2]
  have hist3 : s3.price_history = s1.price_history := by rw [hst3, h3, hist2]
  -- step 4: 5 → 6, change event
  have hst4 : s4 = applySuccess env4 r4 s3 := by
    exact job_step _ _ _ (by rw [q3]; exact hq4) hs4
  have hch4 : priceChanged r4.change_count s3.adaptive.last_change_count = true := by
    rw [hc4, last3]; rfl
  obtain ⟨u4, l4, h4⟩ := applySuccess_change env4 r4 s3 hch4
  have q4 : s4.quiet_hours = initialState.quiet_hours := by
    rw [hst4, applySuccess_quiet_hours, q3]
  have last4 : s4.adaptive.last_change_count = some 6 := by rw [hst4, l4, hc4]
  have hlen1 : s1.price_history.length < HISTORY_MAXLEN := by
    rw [hist1]; simp [HISTORY_MAXLEN]
  have hist4 : s4.price_history =
      s1.price_history ++
        [mkHistoryEntry (backfillResult env4 s3.price_history r4)] := by
    rw [hst4, h4, hist3, dequeAppend_small _ _ _ hlen1]
  -- step 5: 6 = 6, no change
  have hst5 : s5 = applySuccess env5 r5 s4 := by
    exact job_step _ _ _ (by rw [q4]; exact hq5) hs5
  have hch5 : priceChanged r5.change_count s4.adaptive.last_change_count = false := by
    rw [hc5, last4]; rfl
  obtain ⟨u5, l5, h5⟩ := applySuccess_nochange env5 r5 s4 hch5
  have hist5 : s5.price_history = s4.price_history := by rw [hst5, h5]
  refine ⟨by rw [hst1, u1], ?_, ?_, by rw [hst4, u4], ?_, ?_, ?_, ?_, ?_, ?_, ?_⟩
  · rw [hst2, u2, hst1, u1]
  · rw [hst3, u3, hst2, u2, hst1, u1]
  · rw [hst5, u5, hst4, u4]
  · rw [hist1]; rfl
  · rw [hist2, hist1]; rfl
  · rw [hist3, hist1]; rfl
  · rw [hist4, hist1]; rfl
  · rw [hist5, hist4, hist1]; rfl
  · refine ⟨_, _, by rw [hist5, hist4, hist1]; rfl, ?_, ?_⟩
    · rw [mkHistoryEntry_change_count, backfillResult_change_count, hc1]
    · rw [mkHistoryEntry_change_count, backfillResult_change_count, hc4]

/-- Witness for C1 at a concrete run. -/
theorem C1_witness :
    let s1 := (fetch_gold_prices_job false envNoon (sampleRecCC 5) initialState).1
    let s2 := (fetch_gold_prices_job false envNoon (sampleRecCC 5) s1).1
    let s3 := (fetch_gold_prices_job false envNoon (sampleRecCC 5) s2).1
    let s4 := (fetch_gold_prices_job false envNoon (sampleRecCC 6) s3).1
    let s5 := (fetch_gold_prices_job false envNoon (sampleRecCC 6) s4).1
    s1.adaptive.unchanged_count = 0 ∧ s2.adaptive.unchanged_count = 1 ∧
    s3.adaptive.unchanged_count = 2 ∧ s4.adaptive.unchanged_count = 0 ∧
    s5.adaptive.unchanged_count = 1 ∧
    s1.price_history.length = 1 ∧ s2.price_history.length = 1 ∧
    s3.price_history.length = 1 ∧ s4.price_history.length = 2 ∧
    s5.price_history.length = 2 ∧
    ∃ e1 e4 : HistoryEntry, s5.price_history = [e1, e4] ∧
      e1.change_count = 5 ∧ e4.change_count = 6 :=
  C1_change_detector_sequence envNoon envNoon envNoon envNoon envNoon
    (sampleRecCC 5) (sampleRecCC 5) (sampleRecCC 5) (sampleRecCC 6) (sampleRecCC 6)
    (by decide) (by decide) (by decide) (by decide) (by decide)
    rfl rfl rfl rfl rfl rfl rfl rfl rfl rfl

/-! ## C2 -/

theorem dequeAppend_length_le {α : Type} (cap : Nat) (xs : List α) (x : α)
    (h : xs.length ≤ cap) (hcap : 0 < cap) :
    (dequeAppend cap xs x).length ≤ cap := by
  unfold dequeAppend
  split
  · simp only [List.length_append, List.length_singleton]; omega
  · simp only [List.length_append, List.length_drop, List.length_singleton]; omega

theorem applySuccess_history_le (env : JobEnv) (r : PriceRecord) (st : AppState)
    (h : st.price_history.length ≤ HISTORY_MAXLEN) :
    (applySuccess env r st).price_history.length ≤ HISTORY_MAXLEN := by
  cases hc : priceChanged r.change_count st.adaptive.last_change_count
  · rw [(applySuccess_nochange env r st hc).2.2]; exact h
  · rw [(applySuccess_change env r st hc).2.2]
    exact dequeAppend_length_le _ _ _ h (by simp [HISTORY_MAXLEN])

theorem job_history_le (force : Bool) (env : JobEnv) (r : PriceRecord)
    (st : AppState) (h : st.price_history.length ≤ HISTORY_MAXLEN) :
    ((fetch_gold_prices_job force env r st).1).price_history.length
      ≤ HISTORY_MAXLEN := by
  unfold fetch_gold_prices_job
  dsimp only
  split
  · exact h
  · split
    · exact applySuccess_history_le _ _ _ h
    · exact h

theorem runJobs_history_le (inputs : List JobInput) (st : AppState)
    (h : st.price_history.length ≤ HISTORY_MAXLEN) :
    (runJobs inputs st).price_history.length ≤ HISTORY_MAXLEN := by
  induction inputs generalizing st with
  | nil => exact h
  | cons i rest ih =>
    simp only [runJobs, List.foldl] at ih ⊢
    exact ih _ (job_history_le _ _ _ _ h)

/-- C2: over every sequence of fetch outcomes from startup the history
buffer never exceeds 1440 entries, and appending an accepted change to a
full buffer evicts exactly the oldest entry, keeping all others in
insertion order. -/
theorem C2_history_capacity_fifo :
    (∀ inputs : List JobInput,
      (runJobs inputs initialState).price_history.length ≤ HISTORY_MAXLEN)
    ∧ (∀ (xs : List HistoryEntry) (e : HistoryEntry),
        xs.length = HISTORY_MAXLEN →
        dequeAppend HISTORY_MAXLEN xs e = xs.tail ++ [e]) := by
  constructor
  · intro inputs
    exact runJobs_history_le inputs initialState (by simp [initialState])
  · intro xs e hlen
    unfold dequeAppend
    rw [if_neg (by omega), hlen]
    simp [List.drop_one]

/-- Witness for C2: one concrete tick, and FIFO eviction on a concrete full
buffer. -/
theorem C2_witness :
    (runJobs [⟨false, envNoon, sampleRec⟩] initialState).price_history.length
        ≤ HISTORY_MAXLEN
    ∧ dequeAppend HISTORY_MAXLEN
        (List.replicate HISTORY_MAXLEN (mkHistoryEntry sampleRec))
        (mkHistoryEntry (sampleRecCC 9)) =
      (List.replicate HISTORY_MAXLEN (mkHistoryEntry sampleRec)).tail ++
        [mkHistoryEntry (sampleRecCC 9)] :=
  ⟨C2_history_capacity_fifo.1 _,
   C2_history_capacity_fifo.2 _ _ (by simp)⟩

/-! ## C5 -/

/-- Modelled from the wording of the spec for the window rule, for comparison
against `is_quiet_hours`: a window with `start > end` wraps past midnight
and is active when `now ≥ start ∨ now < end`; otherwise it is active when
`start ≤ now < end`. -/
def quietActiveSpec (startM endM nowM : Nat) : Bool :=
  if endM < startM then decide (startM ≤ nowM ∨ nowM < endM)
  else decide (startM ≤ nowM ∧ nowM < endM)

/-- On the default quiet-hours settings (both windows `18:00`-`08:00`,
enabled) the gate reduces to the wrapped-window inequality. -/
theorem quiet_default_eval (env : JobEnv) :
    is_quiet_hours env initialState.quiet_hours =
      decide (1080 ≤ env.hour * 60 + env.minute ∨ env.hour * 60 + env.minute < 480) := by
  have hcfg : (if env.weekday < 5 then initialState.quiet_hours.weekday
      else initialState.quiet_hours.weekend)
      = ⟨true, "18:00", "08:00"⟩ := by split <;> rfl
  unfold is_quiet_hours
  dsimp only
  rw [hcfg]
  simp [initialState, show parseHM "18:00" = 1080 from by decide,
        show parseHM "08:00" = 480 from by decide]

/-- C5: the quiet-hours gate follows the wrap-around window rule; the
default `{start 18:00, end 08:00}` window classifies 23:00 and 05:00 as
quiet and 12:00 as not quiet; and an active gate makes a non-forced tick
return with no state mutation (and no flush). -/
theorem C5_quiet_hours_gate :
    (∀ (env : JobEnv) (qs : QuietHoursSettings), qs.enabled = true →
      ((if env.weekday < 5 then qs.weekday else qs.weekend).enabled = true) →
      is_quiet_hours env qs =
        quietActiveSpec
          (parseHM (if env.weekday < 5 then qs.weekday else qs.weekend).start)
          (parseHM (if env.weekday < 5 then qs.weekday else qs.weekend).stop)
          (env.hour * 60 + env.minute))
    ∧ (∀ env : JobEnv, env.hour = 23 →
        is_quiet_hours env initialState.quiet_hours = true)
    ∧ (∀ env : JobEnv, env.hour = 5 → env.minute < 60 →
        is_quiet_hours env initialState.quiet_hours = true)
    ∧ (∀ env : JobEnv, env.hour = 12 → env.minute < 60 →
        is_quiet_hours env initialState.quiet_hours = false)
    ∧ (∀ (env : JobEnv) (r : PriceRecord) (st : AppState),
        is_quiet_hours env st.quiet_hours = true →
        fetch_gold_prices_job false env r st = (st, false)) := by
  refine ⟨?_, ?_, ?_, ?_, ?_⟩
  · intro env qs h1 h2
    unfold is_quiet_hours quietActiveSpec
    simp only [h1, h2]
    simp
  · intro env h
    rw [quiet_default_eval, h]
    simp only [decide_eq_true_eq]
    omega
  · intro env h hm
    rw [quiet_default_eval, h]
    simp only [decide_eq_true_eq]
    omega
  · intro env h hm
    rw [quiet_default_eval, h]
    rw [decide_eq_false_iff_not]
    omega
  · intro env r st hq
    unfold fetch_gold_prices_job
    simp [hq]

/-- Witness for C5 at 23:00, 05:00 and 12:00 on a Monday, on the default
window. -/
theorem C5_witness :
    is_quiet_hours { hour := 23, minute := 0, weekday := 0, today := "2026-01-05" }
      initialState.quiet_hours = true
    ∧ is_quiet_hours { hour := 5, minute := 0, weekday := 0, today := "2026-01-05" }
        initialState.quiet_hours = true
    ∧ is_quiet_hours { hour := 12, minute := 0, weekday := 0, today := "2026-01-05" }
        initialState.quiet_hours = false
    ∧ is_quiet_hours { hour := 23, minute := 0, weekday := 0, today := "2026-01-05" }
        initialState.quiet_hours =
      quietActiveSpec (parseHM initialState.quiet_hours.weekday.start)
        (parseHM initialState.quiet_hours.weekday.stop) (23 * 60 + 0)
    ∧ fetch_gold_prices_job false
        { hour := 23, minute := 0, weekday := 0, today := "2026-01-05" }
        sampleRec initialState = (initialState, false) :=
  ⟨C5_quiet_hours_gate.2.1 _ rfl,
   C5_quiet_hours_gate.2.2.1 _ rfl (by decide),
   C5_quiet_hours_gate.2.2.2.1 _ rfl (by decide),
   C5_quiet_hours_gate.1 _ _ rfl (by decide),
   C5_quiet_hours_gate.2.2.2.2 _ _ _ (C5_quiet_hours_gate.2.1 _ rfl)⟩

/-! ## C6 -/

/-- C6: the fixed priority ladder of the adaptive controller — off-hours (weekend or
hour outside 09:00–17:00) dominates, then the `≥10` tier, then the `≥5`
tier, then the base; `base=120` with `unchanged_count≥12` off a weekend in
trading hours yields the `≥10` tier (600), not the base (120) and not the
`≥5` tier (360); and `current_interval` is updated with a reschedule iff
the desired interval differs from the current one. -/
theorem C6_adaptive_interval_priority (env : JobEnv) (a : AdaptiveSettings) :
    (isOffHours env = true ↔ (5 ≤ env.weekday ∨ env.hour < 9 ∨ 17 ≤ env.hour))
    ∧ (isOffHours env = true → desiredInterval env a = a.base_interval * 10)
    ∧ (isOffHours env = false → 10 ≤ a.unchanged_count →
        desiredInterval env a = a.base_interval * 5)
    ∧ (isOffHours env = false → 5 ≤ a.unchanged_count → a.unchanged_count < 10 →
        desiredInterval env a = a.base_interval * 3)
    ∧ (isOffHours env = false → a.unchanged_count < 5 →
        desiredInterval env a = a.base_interval)
    ∧ (a.base_interval = 120 → 10 ≤ a.unchanged_count → isOffHours env = false →
        desiredInterval env a = 600 ∧ desiredInterval env a ≠ 120
          ∧ desiredInterval env a ≠ 360)
    ∧ (desiredInterval env a ≠ a.current_interval →
        adjust_refresh_interval env a =
          ({ a with current_interval := desiredInterval env a },
            some (desiredInterval env a)))
    ∧ (desiredInterval env a = a.current_interval →
        adjust_refresh_interval env a = (a, none)) := by
  refine ⟨by simp [isOffHours], ?_, ?_, ?_, ?_, ?_, ?_, ?_⟩
  · intro hoff; unfold desiredInterval; rw [if_pos hoff]
  · intro hoff h10
    unfold desiredInterval
    rw [if_neg (by simp [hoff]), if_pos h10]
  · intro hoff h5 h10
    unfold desiredInterval
    rw [if_neg (by simp [hoff]), if_neg (by omega), if_pos h5]
  · intro hoff h5
    unfold desiredInterval
    rw [if_neg (by simp [hoff]), if_neg (by omega), if_neg (by omega)]
  · intro hbase h10 hoff
    unfold desiredInterval
    rw [if_neg (by simp [hoff]), if_pos h10, hbase]
    refine ⟨by norm_num, by norm_num, by norm_num⟩
  · intro hne
    unfold adjust_refresh_interval
    dsimp only
    rw [if_pos hne]
  · intro heq
    unfold adjust_refresh_interval
    dsimp only
    rw [if_neg (by simp [heq])]

/-- Witness for C6: base 120s, `unchanged_count = 12`, Monday 12:00 — the
`≥10` tier wins and a reschedule to 600s is issued. -/
theorem C6_witness :
    (desiredInterval envNoon
        { adaptive_enabled := true, base_interval := 120, unchanged_count := 12
          last_change_count := some 5, current_interval := 120 } = 600
      ∧ desiredInterval envNoon
          { adaptive_enabled := true, base_interval := 120, unchanged_count := 12
            last_change_count := some 5, current_interval := 120 } ≠ 120
      ∧ desiredInterval envNoon
          { adaptive_enabled := true, base_interval := 120, unchanged_count := 12
            last_change_count := some 5, current_interval := 120 } ≠ 360)
    ∧ adjust_refresh_interval envNoon
        { adaptive_enabled := true, base_interval := 120, unchanged_count := 12
          last_change_count := some 5, current_interval := 120 } =
      ({ adaptive_enabled := true, base_interval := 120, unchanged_count := 12
         last_change_count := some 5, current_interval := 600 }, some 600) :=
  ⟨(C6_adaptive_interval_priority envNoon _).2.2.2.2.2.1 rfl (by decide) (by decide),
   (C6_adaptive_interval_priority envNoon _).2.2.2.2.2.2.1 (by decide)⟩

/-! ## C9 -/

/-- C9 counterexample: a single non-skipped tick whose fetch fails — so no
change event has ever been accepted and the history buffer is still empty —
nevertheless triggers the automatic flush, because the trigger is
`len(price_history) % 10 == 0` evaluated after every non-skipped job run,
not a count of accepted change events. -/
theorem C9_counterexample :
    fetch_gold_prices_job false envNoon failRec initialState
        = (initialState, true)
    ∧ initialState.price_history.length = 0 := by
  constructor
  · decide
  · rfl

/-- C9 (amended): the flush serializes the full in-memory history buffer
wholesale; it is triggered at the end of every non-skipped job invocation
exactly when the resulting history length is a multiple of 10 (regardless
of whether that invocation accepted a change or even fetched successfully),
and once at shutdown via `cleanup`. -/
theorem C9_flush_policy (force : Bool) (env : JobEnv) (r : PriceRecord)
    (st : AppState) (h : force = true ∨ is_quiet_hours env st.quiet_hours = false) :
    ((fetch_gold_prices_job force env r st).2 = true ↔
      ((fetch_gold_prices_job force env r st).1).price_history.length % 10 = 0)
    ∧ save_history st = st.price_history
    ∧ cleanup st = save_history st := by
  refine ⟨?_, rfl, rfl⟩
  unfold fetch_gold_prices_job
  rcases h with h | h
  · rw [h]
    dsimp only
    rw [if_neg (by simp)]
    simp
  · rw [if_neg (by simp [h])]
    simp

/-- Witness for C9 (amended) at a concrete forced tick. -/
theorem C9_witness :
    ((fetch_gold_prices_job true envNoon sampleRec initialState).2 = true ↔
      ((fetch_gold_prices_job true envNoon sampleRec
          initialState).1).price_history.length % 10 = 0)
    ∧ save_history initialState = initialState.price_history
    ∧ cleanup initialState = save_history initialState :=
  C9_flush_policy true envNoon sampleRec initialState (Or.inl rfl)

/-! ## C8 -/

/-- C8: a settings update whose `base_interval` lies outside 60–600 seconds
is rejected with the validation error, `base_interval` and
`current_interval` keep their prior values, all other settings (and all
price state) also keep their prior values, and when the request carries no
other key the state is completely unchanged. -/
theorem C8_base_interval_validation (p : SettingsPayload) (st : AppState)
    (i : Int) (hbi : p.base_interval = some i) (hout : i < 60 ∨ 600 < i) :
    (update_settings p st).1 = some "Interval must be 60-600 seconds"
    ∧ ((update_settings p st).2).adaptive.base_interval = st.adaptive.base_interval
    ∧ ((update_settings p st).2).adaptive.current_interval
        = st.adaptive.current_interval
    ∧ ((update_settings p st).2).adaptive.unchanged_count
        = st.adaptive.unchanged_count
    ∧ ((update_settings p st).2).wp_api_enabled = st.wp_api_enabled
    ∧ ((update_settings p st).2).gold_source = st.gold_source
    ∧ ((update_settings p st).2).quiet_hours = st.quiet_hours
    ∧ ((update_settings p st).2).current_price = st.current_price
    ∧ ((update_settings p st).2).price_history = st.price_history
    ∧ (p.adaptive_enabled = none → (update_settings p st).2 = st) := by
  have hrej : update_settings p st =
      (some "Interval must be 60-600 seconds",
        match p.adaptive_enabled with
        | some b => { st with adaptive := { st.adaptive with adaptive_enabled := b } }
        | none => st) := by
    unfold update_settings
    rw [hbi]
    dsimp only
    rw [if_neg (by omega)]
  rw [hrej]
  cases p.adaptive_enabled <;>
    simp

/-- Witness for C8: `base_interval = 700` on the startup state is rejected
and the state is untouched. -/
theorem C8_witness :
    (update_settings { emptyPayload with base_interval := some 700 }
        initialState).1 = some "Interval must be 60-600 seconds"
    ∧ (update_settings { emptyPayload with base_interval := some 700 }
        initialState).2 = initialState :=
  ⟨(C8_base_interval_validation _ initialState 700 rfl (Or.inr (by norm_num))).1,
   (C8_base_interval_validation _ initialState 700 rfl
      (Or.inr (by norm_num))).2.2.2.2.2.2.2.2.2 rfl⟩

/-! ## C4 -/

/-- C4: in auto mode, when the primary API fetch fails the fallback adapter
is consulted, and when the fallback also fails the caller receives the
failure record of the primary — carrying the error of the primary, not
that of the fallback. -/
theorem C4_auto_both_fail_primary_error (api scraped : PriceRecord)
    (now : StaleClock) (hapi : api.success = false)
    (hscr : scraped.success = false) :
    fetch_gold_prices SOURCE_AUTO api scraped now
        = { api with source_type := some SOURCE_API }
    ∧ (fetch_gold_prices SOURCE_AUTO api scraped now).error = api.error := by
  have hwrap : fetch_from_scraper scraped = scraped := by
    unfold fetch_from_scraper; rw [if_neg (by simp [hscr])]
  have hmain : fetch_gold_prices SOURCE_AUTO api scraped now
      = { api with source_type := some SOURCE_API } := by
    unfold fetch_gold_prices
    rw [if_neg (by decide)]
    dsimp only
    rw [if_pos rfl, if_pos (by simp [hapi]), hwrap, if_neg (by simp [hscr])]
  exact ⟨hmain, by rw [hmain]⟩

/-- Witness for C4 on two concrete failed records. -/
theorem C4_witness :
    fetch_gold_prices SOURCE_AUTO failRec
        { failRec with error := some "Scraper module not available",
                       source := GOLD_SCRAPE_URL, source_type := none }
        ⟨20454, 36000000000⟩
      = { failRec with source_type := some SOURCE_API }
    ∧ (fetch_gold_prices SOURCE_AUTO failRec
        { failRec with error := some "Scraper module not available",
                       source := GOLD_SCRAPE_URL, source_type := none }
        ⟨20454, 36000000000⟩).error = some "API request failed: timeout" :=
  ⟨(C4_auto_both_fail_primary_error _ _ _ rfl rfl).1,
   (C4_auto_both_fail_primary_error _ _ _ rfl rfl).2⟩

/-! ## C3 -/

/-- C3: in auto mode a successful primary result whose `update_time` is
judged stale triggers the fallback; a successful fallback is returned with
`price_change`/`today_change` backfilled from the primary whenever the
fallback left their amounts empty, and a failed fallback yields the stale
primary result.  Staleness itself: the `HH:MM` time, shifted to the
previous day when in the future, is stale when more than 30 minutes old
(so 45 minutes in the past is stale). -/
theorem C3_stale_triggers_fallback (api scraped : PriceRecord)
    (now : StaleClock) (hapi : api.success = true)
    (hstale : is_data_stale (api.update_time.getD "") now = true) :
    (scraped.success = true →
      fetch_gold_prices SOURCE_AUTO api scraped now =
        { scraped with
            source := GOLD_SCRAPE_URL
            source_type := some SOURCE_SCRAPER
            price_change :=
              if scraped.price_change.amount = 0 then api.price_change
              else scraped.price_change
            today_change :=
              if scraped.today_change.amount = 0 then api.today_change
              else scraped.today_change })
    ∧ (scraped.success = false →
        fetch_gold_prices SOURCE_AUTO api scraped now
          = { api with source_type := some SOURCE_API })
    ∧ (∀ (clk : StaleClock) (s : String) (h m : Nat),
        findHM s.data = some (h, m) → h ≤ 23 → m ≤ 59 →
        (h * 3600 + m * 60) * 1000000 + 45 * 60 * 1000000 = clk.sodMicros →
        is_data_stale s clk = true)
    ∧ (∀ (clk : StaleClock) (s : String) (h m : Nat),
        findHM s.data = some (h, m) → h ≤ 23 → m ≤ 59 →
        (h * 3600 + m * 60) * 1000000 ≤ clk.sodMicros →
        (is_data_stale s clk = true ↔
          (clk.sodMicros : Int) - (h * 3600 + m * 60) * 1000000 > 1800000000))
    ∧ (∀ (clk : StaleClock) (s : String) (h m : Nat),
        findHM s.data = some (h, m) → h ≤ 23 → m ≤ 59 →
        clk.sodMicros < (h * 3600 + m * 60) * 1000000 →
        (is_data_stale s clk = true ↔
          (clk.day * MICROS_PER_DAY + clk.sodMicros)
              - ((clk.day - 1) * MICROS_PER_DAY + ((h * 3600 + m * 60) * 1000000 : Nat))
            > 1800000000)) := by
  have hstale_eval : ∀ (clk : StaleClock) (s : String) (h m : Nat),
      findHM s.data = some (h, m) → h ≤ 23 → m ≤ 59 →
      is_data_stale s clk =
        decide ((clk.day * MICROS_PER_DAY + clk.sodMicros)
            - (if clk.sodMicros < (h * 3600 + m * 60) * 1000000
               then (clk.day - 1) * MICROS_PER_DAY + ((h * 3600 + m * 60) * 1000000 : Nat)
               else clk.day * MICROS_PER_DAY + ((h * 3600 + m * 60) * 1000000 : Nat))
          > (STALE_THRESHOLD_MINUTES : Int) * 60 * 1000000) := by
    intro clk s h m hfind hh hm
    have hs : s ≠ "" := by
      intro hEq
      rw [hEq] at hfind
      rw [show findHM ("" : String).data = none from rfl] at hfind
      exact Option.noConfusion hfind
    unfold is_data_stale
    rw [if_neg hs, hfind]
    dsimp only
    rw [if_neg (show ¬(23 < h ∨ 59 < m) by omega)]
  refine ⟨?_, ?_, ?_, ?_, ?_⟩
  · intro hscr
    have hwrap : fetch_from_scraper scraped =
        { scraped with source := GOLD_SCRAPE_URL,
                       source_type := some SOURCE_SCRAPER } := by
      unfold fetch_from_scraper; rw [if_pos hscr]
    unfold fetch_gold_prices
    rw [if_neg (by decide)]
    dsimp only
    rw [if_pos rfl, if_neg (by simp [hapi]), if_pos hstale, hwrap]
    dsimp only
    rw [if_pos hscr]
    split_ifs <;> rfl
  · intro hscr
    have hwrap : fetch_from_scraper scraped = scraped := by
      unfold fetch_from_scraper; rw [if_neg (by simp [hscr])]
    unfold fetch_gold_prices
    rw [if_neg (by decide)]
    dsimp only
    rw [if_pos rfl, if_neg (by simp [hapi]), if_pos hstale, hwrap,
        if_neg (by simp [hscr])]
  · intro clk s h m hfind hh hm hsum
    rw [hstale_eval clk s h m hfind hh hm]
    rw [if_neg (by omega)]
    simp only [MICROS_PER_DAY, STALE_THRESHOLD_MINUTES, decide_eq_true_eq]
    omega
  · intro clk s h m hfind hh hm hle
    rw [hstale_eval clk s h m hfind hh hm]
    rw [if_neg (by omega)]
    simp only [MICROS_PER_DAY, STALE_THRESHOLD_MINUTES, decide_eq_true_eq]
    omega
  · intro clk s h m hfind hh hm hfut
    rw [hstale_eval clk s h m hfind hh hm]
    rw [if_pos hfut]
    simp only [MICROS_PER_DAY, STALE_THRESHOLD_MINUTES, decide_eq_true_eq]
    omega

/-- Witness for C3: primary updated at 10:00, clock at 10:45 — stale; a
successful fallback with empty change amounts is returned backfilled. -/
theorem C3_witness :
    (fetch_gold_prices SOURCE_AUTO
        { sampleRec with update_time := some "10:00" }
        { sampleRec with update_time := some "10:40",
                         price_change := { amount := 0, direction := "unchanged" },
                         today_change := { amount := 0, direction := "unchanged" },
                         source := GOLD_SCRAPE_URL, source_type := none,
                         change_count := 5 }
        ⟨20454, (10 * 3600 + 45 * 60) * 1000000⟩ =
      { sampleRec with update_time := some "10:40",
                       price_change := sampleRec.price_change,
                       today_change := sampleRec.today_change,
                       source := GOLD_SCRAPE_URL,
                       source_type := some SOURCE_SCRAPER,
                       change_count := 5 })
    ∧ is_data_stale "10:00" ⟨20454, (10 * 3600 + 45 * 60) * 1000000⟩ = true := by
  have hst := C3_stale_triggers_fallback
    { sampleRec with update_time := some "10:00" }
    { sampleRec with update_time := some "10:40",
                     price_change := { amount := 0, direction := "unchanged" },
                     today_change := { amount := 0, direction := "unchanged" },
                     source := GOLD_SCRAPE_URL, source_type := none,
                     change_count := 5 }
    ⟨20454, (10 * 3600 + 45 * 60) * 1000000⟩ rfl (by decide)
  refine ⟨?_, hst.2.2.1 ⟨20454, (10 * 3600 + 45 * 60) * 1000000⟩ "10:00" 10 0
    (by decide) (by decide) (by decide) (by decide)⟩
  rw [hst.1 rfl]
  rfl

/-! ## C7 -/

/-- C7: a forced refresh issued while the timestamp of the current snapshot is
less than 30 seconds old is rejected without fetching: the response is the
rate-limited failure carrying the still-current snapshot, and the state is
left unchanged. -/
theorem C7_refresh_rate_limited (now : DateTimeN) (env : JobEnv)
    (fetchResult : PriceRecord) (st : AppState) (cp : PriceRecord) (s : String)
    (dt : DateTimeN) (hcp : st.current_price = some cp)
    (hts : cp.timestamp = some s) (hne : s ≠ "")
    (hparse : fromisoformat s = some (dt, false))
    (_hpos : 0 ≤ (toMicros now : Int) - toMicros dt)
    (hlt : (toMicros now : Int) - toMicros dt < 30 * 1000000) :
    refresh_prices now env fetchResult st = ((false, some cp), st) := by
  have hrl : refreshRateLimited now st = true := by
    unfold refreshRateLimited
    rw [hcp]; dsimp only
    rw [hts]; dsimp only
    rw [if_neg hne, hparse]; dsimp only
    rw [if_neg (by simp)]
    simpa using hlt
  unfold refresh_prices
  rw [if_pos hrl, hcp]

/-- Witness for C7: a snapshot taken at `T = 2026-01-05T10:00:00` and a
second forced refresh at `T+10s` — rejected, snapshot unchanged. -/
theorem C7_witness :
    ((refresh_prices { year := 2026, month := 1, day := 5, hour := 10,
                       minute := 0, second := 0, micro := 0 }
        envNoon sampleRec initialState).2).current_price = some sampleRec
    ∧ refresh_prices
        { year := 2026, month := 1, day := 5, hour := 10, minute := 0,
          second := 10, micro := 0 }
        envNoon (sampleRecCC 9)
        { initialState with current_price := some sampleRec }
      = ((false, some sampleRec),
         { initialState with current_price := some sampleRec }) := by
  constructor
  · decide
  · exact C7_refresh_rate_limited _ envNoon (sampleRecCC 9) _ sampleRec
      "2026-01-05T10:00:00"
      { year := 2026, month := 1, day := 5, hour := 10, minute := 0,
        second := 0, micro := 0 }
      rfl rfl (by decide) (by decide) (by decide) (by decide)

/-! ## C10 -/

/-- C10: the forced-refresh rate limit only applies when a snapshot exists
whose timestamp is a truthy string parsing as a naive ISO datetime; with no
snapshot, or an absent, empty, malformed, or timezone-aware timestamp, the
refresh always proceeds to fetch, whatever the clock says. -/
theorem C10_rate_limit_needs_parseable_timestamp (now : DateTimeN)
    (env : JobEnv) (fetchResult : PriceRecord) (st : AppState)
    (h : st.current_price = none
      ∨ ∃ cp, st.current_price = some cp ∧
          (cp.timestamp = none ∨ cp.timestamp = some "" ∨
            ∃ s, cp.timestamp = some s ∧
              (fromisoformat s = none ∨ ∃ d, fromisoformat s = some (d, true)))) :
    refresh_prices now env fetchResult st =
      ((true, ((fetch_gold_prices_job true env fetchResult st).1).current_price),
        (fetch_gold_prices_job true env fetchResult st).1) := by
  have hrl : refreshRateLimited now st = false := by
    unfold refreshRateLimited
    rcases h with h | ⟨cp, hcp, h⟩
    · rw [h]
    · rw [hcp]; dsimp only
      rcases h with h | h | ⟨s, hs, h⟩
      · rw [h]
      · rw [h]; dsimp only
        rw [if_pos rfl]
      · rw [hs]; dsimp only
        rcases h with h | ⟨d, h⟩
        · rw [h]
          split <;> rfl
        · rw [h]; dsimp only
          split
          · rfl
          · rw [if_pos rfl]
  unfold refresh_prices
  rw [hrl]
  simp

/-- A snapshot whose timestamp does not parse as an ISO datetime. -/
def badTsRec : PriceRecord := { sampleRec with timestamp := some "yesterday morning" }

/-- A state holding the unparseable-timestamp snapshot. -/
def stBadTs : AppState := { initialState with current_price := some badTsRec }

/-- Witness for C10: no snapshot yet, and a malformed snapshot timestamp —
both proceed straight to the fetch. -/
theorem C10_witness :
    refresh_prices
        { year := 2026, month := 1, day := 5, hour := 10, minute := 0,
          second := 0, micro := 0 } envNoon sampleRec initialState =
      ((true,
        ((fetch_gold_prices_job true envNoon sampleRec initialState).1).current_price),
        (fetch_gold_prices_job true envNoon sampleRec initialState).1)
    ∧ refresh_prices
        { year := 2026, month := 1, day := 5, hour := 10, minute := 0,
          second := 0, micro := 0 } envNoon sampleRec stBadTs =
      ((true,
        ((fetch_gold_prices_job true envNoon sampleRec stBadTs).1).current_price),
        (fetch_gold_prices_job true envNoon sampleRec stBadTs).1) :=
  ⟨C10_rate_limit_needs_parseable_timestamp _ _ _ _ (Or.inl rfl),
   C10_rate_limit_needs_parseable_timestamp _ _ _ _
     (Or.inr ⟨_, rfl, Or.inr (Or.inr ⟨"yesterday morning", rfl,
       Or.inl (by decide)⟩)⟩)⟩

end GoldBeer
